import Mathlib

/-!
Verification of the Heimdallr DICOM listener (dicom_listener.py).

This file gives a shallow embedding of the listener core:
sanitize_filename, write_instance, zip_study, the upload retry loop of
HeimdallrDicomListener.scan_and_flush, and the handlers on_c_store and
scan_and_flush themselves, together with theorems settling the
specification claims about them.

Modelling conventions:
- Python strings are lists of characters (Str).
- The Unicode-aware Python predicate str.isalnum is a parameter (alnum);
  every theorem about sanitize_filename holds for an arbitrary predicate,
  so in particular for the real one.
- Timestamps (time.time values) are integers (a fixed sub-second granularity; only order and subtraction matter).
- A World value models the registry dictionary self.studies plus the
  relevant parts of the filesystem: the incoming raw trees keyed by study
  directory name, and the sent and failed stores keyed by archive name.
- Effects that can fail are given by oracles: the HTTP endpoint is a
  function from the attempt number to an UploadResult, and a Bool oracle
  says whether an I/O step (zip construction in a flush, the disk write in
  on_c_store) raises.  A raised-and-propagating exception is an
  Except.error result carrying the state left behind.
-/

namespace DicomListener

/-- Python strings are modelled as lists of characters. -/
abbrev Str := List Char

/-- Embed a Lean string literal into the character-list model. -/
def pyStr (s : String) : Str := s.toList

/-- Decimal rendering of a natural number, as in a Python f-string. -/
def natStr (n : Nat) : Str := (toString n).toList

/-- Python str.strip with no argument: drop leading and trailing whitespace. -/
def pyStrip (s : Str) : Str :=
  ((s.dropWhile Char.isWhitespace).reverse.dropWhile Char.isWhitespace).reverse

/-- sanitize_filename (dicom_listener.py, line 79): keep only characters that
are alphanumeric or one of "-", "_", ".", truncate the result to 200
characters, and fall back to "unknown" when the result is empty.  The Python
membership test is over the Unicode-aware str.isalnum, which appears here as
the parameter alnum. -/
def sanitize_filename (alnum : Char → Bool) (s : Str) : Str :=
  if ((s.filter fun c => alnum c || c == '-' || c == '_' || c == '.').take 200) = [] then
    pyStr ("unknown")
  else
    (s.filter fun c => alnum c || c == '-' || c == '_' || c == '.').take 200

/-- C3: for every input string (including the empty string, Unicode strings
and path-traversal sequences) and every alphanumeric predicate that accepts
the ASCII letters of the fallback token "unknown" (as the real str.isalnum
does), sanitize_filename never returns an empty string, caps the output
length at 200 characters, and the output contains only characters from the
allowed set (alphanumerics plus "-", "_", ".").  Purity, determinism and
totality hold because sanitize_filename is a total Lean function of its
arguments. -/
theorem sanitize_filename_spec (alnum : Char → Bool) (s : Str)
    (h : ∀ c ∈ pyStr ("unknown"), alnum c = true) :
    sanitize_filename alnum s ≠ [] ∧
    (sanitize_filename alnum s).length ≤ 200 ∧
    ∀ c ∈ sanitize_filename alnum s, alnum c = true ∨ c = '-' ∨ c = '_' ∨ c = '.' := by
  unfold sanitize_filename
  by_cases hk : ((s.filter fun c => alnum c || c == '-' || c == '_' || c == '.').take 200) = []
  · rw [if_pos hk]
    refine ⟨by decide, by decide, ?_⟩
    intro c hc
    exact Or.inl (h c hc)
  · rw [if_neg hk]
    refine ⟨hk, le_trans (List.length_take_le 200 _) le_rfl, ?_⟩
    intro c hc
    have hmem : c ∈ s.filter fun c => alnum c || c == '-' || c == '_' || c == '.' :=
      List.mem_of_mem_take hc
    have hpred := List.of_mem_filter hmem
    simp only [Bool.or_eq_true, beq_iff_eq] at hpred
    tauto

/-- Witness for C3 at a concrete path-traversal input, with alnum
instantiated to the ASCII alphanumeric predicate. -/
theorem sanitize_filename_spec_witness :
    sanitize_filename Char.isAlphanum (pyStr ("../../etc/passwd")) ≠ [] ∧
    (sanitize_filename Char.isAlphanum (pyStr ("../../etc/passwd"))).length ≤ 200 :=
  ⟨(sanitize_filename_spec Char.isAlphanum (pyStr ("../../etc/passwd")) (by decide)).1,
   (sanitize_filename_spec Char.isAlphanum (pyStr ("../../etc/passwd")) (by decide)).2.1⟩

/-- Result of one call of upload_zip as seen by the retry loop in
scan_and_flush: either an HTTP response with a status code, or a
request-level exception (the except-branch at line 325). -/
inductive UploadResult where
  | resp (status : Nat)
  | exc
deriving DecidableEq

/-- The success test at line 318: 200 <= resp.status_code < 300. -/
def is2xx (s : Nat) : Bool := decide (200 ≤ s) && decide (s < 300)

/-- Whether one attempt outcome breaks the retry loop.  A non-2xx response
and a request-level exception behave identically in the loop body apart
from logging: both sleep upload_backoff seconds and continue. -/
def isSuccess : UploadResult → Bool
  | .resp s => is2xx s
  | .exc => false

/-- Observable outcome of the retry loop of scan_and_flush (lines 306-327):
the final ok flag, the number of upload attempts made, and the number of
time.sleep(upload_backoff) calls performed. -/
structure LoopOut where
  ok : Bool
  attempts : Nat
  sleeps : Nat
deriving DecidableEq

/-- The retry loop, recursing on the remaining-attempt budget.  attempt is
the 1-based number of the next attempt, mirroring
range(1, upload_retries + 1).  The loop body sleeps after every failed
attempt, including the last one, before the for-loop terminates. -/
def uploadAttempts (endpoint : Nat → UploadResult) : Nat → Nat → LoopOut
  | _, 0 => ⟨false, 0, 0⟩
  | attempt, rem + 1 =>
    if isSuccess (endpoint attempt) then ⟨true, 1, 0⟩
    else
      let r := uploadAttempts endpoint (attempt + 1) rem
      ⟨r.ok, r.attempts + 1, r.sleeps + 1⟩

/-- The whole retry loop: attempts numbered from 1, budget upload_retries. -/
def uploadLoop (endpoint : Nat → UploadResult) (retries : Nat) : LoopOut :=
  uploadAttempts endpoint 1 retries

theorem uploadAttempts_all_fail (endpoint : Nat → UploadResult) :
    ∀ n a, (∀ i, i < n → isSuccess (endpoint (a + i)) = false) →
      uploadAttempts endpoint a n = ⟨false, n, n⟩ := by
  intro n
  induction n with
  | zero => intro a _; rfl
  | succ m ih =>
    intro a h
    have h0 : isSuccess (endpoint a) = false := by
      have := h 0 (Nat.succ_pos m)
      simpa using this
    have hrec : uploadAttempts endpoint (a + 1) m = ⟨false, m, m⟩ := by
      refine ih (a + 1) (fun i hi => ?_)
      have := h (i + 1) (by omega)
      have harith : a + (i + 1) = a + 1 + i := by omega
      rwa [harith] at this
    simp [uploadAttempts, h0, hrec]

theorem uploadAttempts_succeeds (endpoint : Nat → UploadResult) :
    ∀ k a n, k < n → (∀ i, i < k → isSuccess (endpoint (a + i)) = false) →
      isSuccess (endpoint (a + k)) = true →
      uploadAttempts endpoint a n = ⟨true, k + 1, k⟩ := by
  intro k
  induction k with
  | zero =>
    intro a n hn hf hs
    obtain ⟨m, rfl⟩ : ∃ m, n = m + 1 := ⟨n - 1, by omega⟩
    simp only [Nat.add_zero] at hs
    simp [uploadAttempts, hs]
  | succ j ih =>
    intro a n hn hf hs
    obtain ⟨m, rfl⟩ : ∃ m, n = m + 1 := ⟨n - 1, by omega⟩
    have h0 : isSuccess (endpoint a) = false := by
      have := hf 0 (Nat.succ_pos j)
      simpa using this
    have hrec : uploadAttempts endpoint (a + 1) m = ⟨true, j + 1, j⟩ := by
      refine ih (a + 1) m (by omega) (fun i hi => ?_) ?_
      · have := hf (i + 1) (by omega)
        have harith : a + (i + 1) = a + 1 + i := by omega
        rwa [harith] at this
      · have harith : a + (j + 1) = a + 1 + j := by omega
        rwa [harith] at hs
    simp [uploadAttempts, h0, hrec]

/-- C2 (amended): against an endpoint that fails every attempt, the retry
loop makes exactly uploadRetries attempts with exactly uploadRetries fixed
backoff waits (the loop sleeps after every failed attempt, including the
final one) and finishes with ok = false, i.e. the failed classification;
against an endpoint that fails the first k < uploadRetries attempts and
returns 2xx on attempt k + 1, the outcome is success after k + 1 attempts
and k backoff waits. -/
theorem retry_policy (endpoint : Nat → UploadResult) (retries k : Nat) :
    ((∀ i, i < retries → isSuccess (endpoint (i + 1)) = false) →
        uploadLoop endpoint retries = ⟨false, retries, retries⟩) ∧
    (k < retries → (∀ i, i < k → isSuccess (endpoint (i + 1)) = false) →
        isSuccess (endpoint (k + 1)) = true →
        uploadLoop endpoint retries = ⟨true, k + 1, k⟩) := by
  constructor
  · intro h
    refine uploadAttempts_all_fail endpoint retries 1 (fun i hi => ?_)
    rw [Nat.add_comm 1 i]
    exact h i hi
  · intro hk hf hs
    refine uploadAttempts_succeeds endpoint k 1 retries hk (fun i hi => ?_) ?_
    · rw [Nat.add_comm 1 i]
      exact hf i hi
    · rw [Nat.add_comm 1 k]
      exact hs

/-- Witness for C2 (amended) at concrete endpoints: one that returns 500,
500 and then 200 with four allowed attempts, and one that always raises
with two allowed attempts. -/
theorem retry_policy_witness :
    uploadLoop (fun a => if a ≤ 2 then UploadResult.resp 500 else UploadResult.resp 200) 4
      = ⟨true, 3, 2⟩ ∧
    uploadLoop (fun _ => UploadResult.exc) 2 = ⟨false, 2, 2⟩ :=
  ⟨(retry_policy (fun a => if a ≤ 2 then UploadResult.resp 500 else UploadResult.resp 200) 4 2).2
      (by decide) (by decide) (by decide),
   (retry_policy (fun _ => UploadResult.exc) 2 0).1 (by decide)⟩

/-- C2 counterexample: with uploadRetries = 3 against an endpoint that
always answers HTTP 500, the loop performs 3 backoff waits, not
uploadRetries - 1 = 2 as the claim states: the code sleeps after the final
failed attempt as well. -/
theorem retry_sleep_counterexample :
    (uploadLoop (fun _ => UploadResult.resp 500) 3).ok = false ∧
    (uploadLoop (fun _ => UploadResult.resp 500) 3).attempts = 3 ∧
    (uploadLoop (fun _ => UploadResult.resp 500) 3).sleeps = 3 ∧
    ¬(uploadLoop (fun _ => UploadResult.resp 500) 3).sleeps = 3 - 1 := by
  refine ⟨?_, ?_, ?_, ?_⟩ <;> decide

/-- One file inside a study directory: its directory components relative to
the study directory (the series subdirectory), its file name, and its
bytes. -/
structure FileEnt where
  dir : List Str
  name : Str
  bytes : List Nat
deriving DecidableEq

/-- zip_study (dicom_listener.py, line 122): walk the study directory and
add every file except .DS_Store to the archive under its path relative to
the study directory.  The input list is the enumeration produced by
os.walk, in walk order; the archive is modelled as the ordered sequence of
its entries (entry order determines the archive bytes). -/
def zip_study (tree : List FileEnt) : List FileEnt :=
  tree.filter fun e => decide (e.name ≠ pyStr (".DS_Store"))

/-- C4 counterexample: two enumerations of the same set of files (the same
study directory tree, walked in different orders) produce different
archives, because zip_study preserves the walk order and never sorts.  So
the archive is not a function of the tree alone, refuting the claimed
determinism with stable entry ordering. -/
theorem zip_order_counterexample :
    (zip_study [⟨[pyStr ("s")], pyStr ("a.dcm"), [1]⟩, ⟨[pyStr ("s")], pyStr ("b.dcm"), [2]⟩]
      ≠ zip_study [⟨[pyStr ("s")], pyStr ("b.dcm"), [2]⟩, ⟨[pyStr ("s")], pyStr ("a.dcm"), [1]⟩]) ∧
    List.Perm
      [(⟨[pyStr ("s")], pyStr ("a.dcm"), [1]⟩ : FileEnt), ⟨[pyStr ("s")], pyStr ("b.dcm"), [2]⟩]
      [⟨[pyStr ("s")], pyStr ("b.dcm"), [2]⟩, ⟨[pyStr ("s")], pyStr ("a.dcm"), [1]⟩] := by
  refine ⟨by decide, ?_⟩
  exact List.Perm.swap _ _ _

/-- C4 (amended): zip_study is a pure function of the walk enumeration of
the study directory: the archive is a subsequence of the enumeration (walk
order preserved, no reordering), it skips exactly the OS junk files named
.DS_Store, and it contains every other file with its series/instance
relative path and bytes unchanged.  Determinism therefore holds relative to
a fixed enumeration order, not relative to the tree as a set of files. -/
theorem zip_study_spec (tree : List FileEnt) :
    List.Sublist (zip_study tree) tree ∧
    ∀ e, e ∈ zip_study tree ↔ e ∈ tree ∧ e.name ≠ pyStr (".DS_Store") := by
  refine ⟨List.filter_sublist tree, fun e => ?_⟩
  simp [zip_study]

/-- Witness for C4 (amended) at a concrete two-file enumeration holding
one junk file. -/
theorem zip_study_spec_witness :
    List.Sublist
      (zip_study [⟨[pyStr ("s")], pyStr ("a.dcm"), [1]⟩, ⟨[], pyStr (".DS_Store"), []⟩])
      [⟨[pyStr ("s")], pyStr ("a.dcm"), [1]⟩, ⟨[], pyStr (".DS_Store"), []⟩] ∧
    ((⟨[pyStr ("s")], pyStr ("a.dcm"), [1]⟩ : FileEnt)
        ∈ zip_study [⟨[pyStr ("s")], pyStr ("a.dcm"), [1]⟩, ⟨[], pyStr (".DS_Store"), []⟩] ↔
      (⟨[pyStr ("s")], pyStr ("a.dcm"), [1]⟩ : FileEnt)
          ∈ [(⟨[pyStr ("s")], pyStr ("a.dcm"), [1]⟩ : FileEnt), ⟨[], pyStr (".DS_Store"), []⟩] ∧
        (⟨[pyStr ("s")], pyStr ("a.dcm"), [1]⟩ : FileEnt).name ≠ pyStr (".DS_Store")) :=
  ⟨(zip_study_spec [⟨[pyStr ("s")], pyStr ("a.dcm"), [1]⟩, ⟨[], pyStr (".DS_Store"), []⟩]).1,
   (zip_study_spec [⟨[pyStr ("s")], pyStr ("a.dcm"), [1]⟩, ⟨[], pyStr (".DS_Store"), []⟩]).2
     ⟨[pyStr ("s")], pyStr ("a.dcm"), [1]⟩⟩

/-- A study registry entry (the StudyState dataclass, line 52).  path holds
the study directory name, which on_c_store always sets to the sanitized
study identifier (the incoming_dir prefix is constant and omitted). -/
structure StudyState where
  study_uid : Str
  path : Str
  last_update_ts : ℤ
  locked : Bool
deriving DecidableEq

/-- The listener state touched by on_c_store and scan_and_flush: the
self.studies dictionary as an insertion-ordered association list, the raw
incoming trees keyed by study directory name, and the sent and failed
stores as the ordered sequence of archive writes (name, entries). -/
structure World where
  studies : List (Str × StudyState)
  raw : List (Str × List FileEnt)
  sent : List (Str × List FileEnt)
  failed : List (Str × List FileEnt)
deriving DecidableEq

/-- Association-list lookup, first binding wins (dictionary keys are
unique, so the choice does not matter on well-formed states). -/
def lookupA {α : Type} : List (Str × α) → Str → Option α
  | [], _ => none
  | (k, v) :: rest, key => if k = key then some v else lookupA rest key

/-- dict.pop: remove the binding of a key. -/
def popKey {α : Type} (l : List (Str × α)) (k : Str) : List (Str × α) :=
  l.filter fun p => decide (p.1 ≠ k)

/-- Update the value bound to a key in place, leaving other bindings and
the binding order unchanged (mutation of the stored object in Python). -/
def mapVal {α : Type} (l : List (Str × α)) (k : Str) (f : α → α) : List (Str × α) :=
  l.map fun p => if p.1 = k then (p.1, f p.2) else p

/-- Set the locked flag of the entry of one study. -/
def setLocked (l : List (Str × StudyState)) (k : Str) (b : Bool) : List (Str × StudyState) :=
  mapVal l k fun st => { st with locked := b }

/-- Set the last_update_ts of the entry of one study. -/
def setTs (l : List (Str × StudyState)) (k : Str) (t : ℤ) : List (Str × StudyState) :=
  mapVal l k fun st => { st with last_update_ts := t }

/-- The raw tree of one study directory; a missing directory walks as
empty, exactly as os.walk yields nothing there. -/
def treeOf (raw : List (Str × List FileEnt)) (p : Str) : List FileEnt :=
  (lookupA raw p).getD []

/-- Write one file into a study directory, overwriting a file at the same
relative path (tmp_path.replace(out_path) overwrites). -/
def putFile (raw : List (Str × List FileEnt)) (p : Str) (f : FileEnt) :
    List (Str × List FileEnt) :=
  match lookupA raw p with
  | none => raw ++ [(p, [f])]
  | some _ =>
      mapVal raw p fun t =>
        (t.filter fun g => decide (¬(g.dir = f.dir ∧ g.name = f.name))) ++ [f]

/-- The keys of an association list, in order. -/
def keys {α : Type} (l : List (Str × α)) : List Str := l.map Prod.fst

theorem lookupA_cons {α : Type} (k0 : Str) (v : α) (rest : List (Str × α)) (key : Str) :
    lookupA ((k0, v) :: rest) key = if k0 = key then some v else lookupA rest key := rfl

theorem mapVal_cons {α : Type} (k0 : Str) (v : α) (rest : List (Str × α)) (k : Str)
    (f : α → α) :
    mapVal ((k0, v) :: rest) k f
      = (if k0 = k then (k0, f v) else (k0, v)) :: mapVal rest k f := by
  by_cases hp : k0 = k
  · simp only [mapVal, List.map_cons, if_pos hp]
  · simp only [mapVal, List.map_cons, if_neg hp]

theorem popKey_cons {α : Type} (k0 : Str) (v : α) (rest : List (Str × α)) (k : Str) :
    popKey ((k0, v) :: rest) k
      = if k0 = k then popKey rest k else (k0, v) :: popKey rest k := by
  by_cases hp : k0 = k
  · simp only [popKey, List.filter_cons, if_pos hp]
    simp [hp]
  · simp only [popKey, List.filter_cons, if_neg hp]
    simp [hp]

theorem lookupA_mapVal {α : Type} (l : List (Str × α)) (k : Str) (f : α → α) :
    lookupA (mapVal l k f) k = (lookupA l k).map f := by
  induction l with
  | nil => rfl
  | cons p rest ih =>
    obtain ⟨k0, v⟩ := p
    by_cases hp : k0 = k
    · rw [mapVal_cons, if_pos hp, lookupA_cons, if_pos hp, lookupA_cons, if_pos hp]
      rfl
    · rw [mapVal_cons, if_neg hp, lookupA_cons, if_neg hp, lookupA_cons, if_neg hp]
      exact ih

theorem lookupA_popKey {α : Type} (l : List (Str × α)) (k : Str) :
    lookupA (popKey l k) k = none := by
  induction l with
  | nil => rfl
  | cons p rest ih =>
    obtain ⟨k0, v⟩ := p
    by_cases hp : k0 = k
    · rw [popKey_cons, if_pos hp]
      exact ih
    · rw [popKey_cons, if_neg hp, lookupA_cons, if_neg hp]
      exact ih

theorem lookupA_append_none {α : Type} (l1 l2 : List (Str × α)) (k : Str)
    (h : lookupA l1 k = none) :
    lookupA (l1 ++ l2) k = lookupA l2 k := by
  induction l1 with
  | nil => rfl
  | cons p rest ih =>
    obtain ⟨k0, v⟩ := p
    by_cases hp : k0 = k
    · rw [lookupA_cons, if_pos hp] at h
      exact absurd h (by simp)
    · rw [lookupA_cons, if_neg hp] at h
      rw [List.cons_append, lookupA_cons, if_neg hp]
      exact ih h

theorem keys_mapVal {α : Type} (l : List (Str × α)) (k : Str) (f : α → α) :
    keys (mapVal l k f) = keys l := by
  induction l with
  | nil => rfl
  | cons p rest ih =>
    obtain ⟨k0, v⟩ := p
    by_cases hp : k0 = k
    · rw [mapVal_cons, if_pos hp]
      show k0 :: keys (mapVal rest k f) = k0 :: keys rest
      rw [ih]
    · rw [mapVal_cons, if_neg hp]
      show k0 :: keys (mapVal rest k f) = k0 :: keys rest
      rw [ih]

theorem mem_treeOf_putFile (raw : List (Str × List FileEnt)) (p : Str) (f : FileEnt) :
    f ∈ treeOf (putFile raw p f) p := by
  unfold putFile
  cases hl : lookupA raw p with
  | none =>
    unfold treeOf
    rw [lookupA_append_none raw _ p hl]
    simp [lookupA]
  | some t =>
    unfold treeOf
    rw [lookupA_mapVal, hl]
    simp

/-- An Except value carrying, in both constructors, the listener state: an
error is an exception propagating out of the modelled code with the state
it leaves behind. -/
def resultWorld : Except World World → World
  | .ok w => w
  | .error w => w

/-- Whether an Except value is a propagating exception. -/
def isError {α β : Type} : Except α β → Bool
  | .ok _ => false
  | .error _ => true

/-- The archive name built at lines 330-331: time.strftime followed by an
underscore, the registry key of the study, and the .zip suffix. -/
def zipName (ts uid : Str) : Str := ts ++ pyStr ("_") ++ uid ++ pyStr (".zip")

/-- The body of one flush inside scan_and_flush (lines 300-359): set
locked, build the archive (zipExc says whether zip_study raises, standing
for any I/O fault of archive construction), run the retry loop, route the
outcome, and clear locked in the finally block.  There is no except
clause: when zip_study raises, the finally block still runs (the object
keeps living in the registry with locked reset) and the exception
propagates as an Except.error. -/
def flushStudy (endpoint : Nat → UploadResult) (retries : Nat) (ts : Str) (zipExc : Bool)
    (w : World) (uid : Str) (st : StudyState) : Except World World :=
  let w1 : World := { w with studies := setLocked w.studies uid true }
  if zipExc then
    Except.error { w1 with studies := setLocked w1.studies uid false }
  else
    let zipB := zip_study (treeOf w1.raw st.path)
    if (uploadLoop endpoint retries).ok then
      let w2 : World :=
        { w1 with
          sent := w1.sent ++ [(zipName ts uid, zipB)],
          raw := popKey w1.raw st.path,
          studies := popKey w1.studies uid }
      Except.ok { w2 with studies := setLocked w2.studies uid false }
    else
      let w2 : World :=
        { w1 with
          failed := w1.failed ++ [(zipName ts uid, zipB)],
          studies := popKey w1.studies uid }
      Except.ok { w2 with studies := setLocked w2.studies uid false }

/-- The loop of scan_and_flush over the snapshot list(self.studies.items())
taken at line 290, with cutoff = now - idle computed once before the loop.
A locked entry is skipped, an entry with last_update_ts > cutoff is
skipped, and otherwise the study is flushed; an exception escaping a flush
aborts the remaining iterations and propagates. -/
def scanFlushList (nowT idle : ℤ) (endpoint : Nat → UploadResult) (retries : Nat) (ts : Str)
    (zipExcOf : Str → Bool) : List (Str × StudyState) → World → Except World World
  | [], w => Except.ok w
  | (uid, st) :: rest, w =>
    if st.locked then scanFlushList nowT idle endpoint retries ts zipExcOf rest w
    else if nowT - idle < st.last_update_ts then
      scanFlushList nowT idle endpoint retries ts zipExcOf rest w
    else
      match flushStudy endpoint retries ts (zipExcOf uid) w uid st with
      | .ok w2 => scanFlushList nowT idle endpoint retries ts zipExcOf rest w2
      | .error w2 => Except.error w2

/-- HeimdallrDicomListener.scan_and_flush (line 281). -/
def scan_and_flush (nowT idle : ℤ) (endpoint : Nat → UploadResult) (retries : Nat) (ts : Str)
    (zipExcOf : Str → Bool) (w : World) : Except World World :=
  scanFlushList nowT idle endpoint retries ts zipExcOf w.studies w

theorem flushStudy_exc_eq (endpoint : Nat → UploadResult) (retries : Nat) (ts : Str)
    (w : World) (uid : Str) (st : StudyState) :
    flushStudy endpoint retries ts true w uid st
      = Except.error
          { w with studies := setLocked (setLocked w.studies uid true) uid false } := rfl

theorem flushStudy_ok_eq (endpoint : Nat → UploadResult) (retries : Nat) (ts : Str)
    (w : World) (uid : Str) (st : StudyState)
    (hok : (uploadLoop endpoint retries).ok = true) :
    flushStudy endpoint retries ts false w uid st
      = Except.ok
          { studies := setLocked (popKey (setLocked w.studies uid true) uid) uid false,
            raw := popKey w.raw st.path,
            sent := w.sent ++ [(zipName ts uid, zip_study (treeOf w.raw st.path))],
            failed := w.failed } := by
  unfold flushStudy
  simp only [hok, Bool.false_eq_true, if_false, if_true]

theorem flushStudy_fail_eq (endpoint : Nat → UploadResult) (retries : Nat) (ts : Str)
    (w : World) (uid : Str) (st : StudyState)
    (hfail : (uploadLoop endpoint retries).ok = false) :
    flushStudy endpoint retries ts false w uid st
      = Except.ok
          { studies := setLocked (popKey (setLocked w.studies uid true) uid) uid false,
            raw := w.raw,
            sent := w.sent,
            failed := w.failed ++ [(zipName ts uid, zip_study (treeOf w.raw st.path))] } := by
  unfold flushStudy
  simp only [hfail, Bool.false_eq_true, if_false, if_true]

theorem lookupA_afterPop (s : List (Str × StudyState)) (uid : Str) :
    lookupA (setLocked (popKey (setLocked s uid true) uid) uid false) uid = none := by
  unfold setLocked
  rw [lookupA_mapVal, lookupA_popKey]
  rfl

/-- C6: when some upload attempt of the retry loop returns 2xx, the flush
of a study writes the archive of its raw tree to the sent store under the
name timestamp_studyId.zip, deletes the raw image tree of that study, and
removes the study from the registry; the failed store is untouched. -/
theorem flush_success_outcome (endpoint : Nat → UploadResult) (retries : Nat) (ts : Str)
    (w : World) (uid : Str) (st : StudyState)
    (hok : (uploadLoop endpoint retries).ok = true) :
    ∃ w2, flushStudy endpoint retries ts false w uid st = Except.ok w2 ∧
      w2.sent = w.sent ++ [(zipName ts uid, zip_study (treeOf w.raw st.path))] ∧
      lookupA w2.raw st.path = none ∧
      lookupA w2.studies uid = none ∧
      w2.failed = w.failed := by
  refine ⟨_, flushStudy_ok_eq endpoint retries ts w uid st hok, rfl, ?_, ?_, rfl⟩
  · exact lookupA_popKey w.raw st.path
  · exact lookupA_afterPop w.studies uid

/-- C7: when every upload attempt fails, the flush writes the same archive
bytes to the failed store under the same naming scheme, removes the study
from the registry, and leaves the raw on-disk trees completely untouched;
the sent store is untouched as well. -/
theorem flush_failed_outcome (endpoint : Nat → UploadResult) (retries : Nat) (ts : Str)
    (w : World) (uid : Str) (st : StudyState)
    (hfail : (uploadLoop endpoint retries).ok = false) :
    ∃ w2, flushStudy endpoint retries ts false w uid st = Except.ok w2 ∧
      w2.failed = w.failed ++ [(zipName ts uid, zip_study (treeOf w.raw st.path))] ∧
      w2.raw = w.raw ∧
      lookupA w2.studies uid = none ∧
      w2.sent = w.sent := by
  refine ⟨_, flushStudy_fail_eq endpoint retries ts w uid st hfail, rfl, rfl, ?_, rfl⟩
  exact lookupA_afterPop w.studies uid

/-- C1 (amended): the locked flag of a study is cleared, or its entry
removed, on every exit path of a flush (success, exhausted retries, or an
exception from archive construction), because of the try/finally block;
but there is no except clause, so when archive construction raises, the
flush does NOT classify the study as failed: nothing is written to the
failed store (or the sent store) and the exception propagates out as an
error result. -/
theorem flush_boundary (endpoint : Nat → UploadResult) (retries : Nat) (ts : Str)
    (zipExc : Bool) (w : World) (uid : Str) (st : StudyState) :
    (∀ st2,
        lookupA (resultWorld (flushStudy endpoint retries ts zipExc w uid st)).studies uid
          = some st2 → st2.locked = false) ∧
    (zipExc = true →
        isError (flushStudy endpoint retries ts zipExc w uid st) = true ∧
        (resultWorld (flushStudy endpoint retries ts zipExc w uid st)).failed = w.failed ∧
        (resultWorld (flushStudy endpoint retries ts zipExc w uid st)).sent = w.sent) := by
  cases zipExc
  case true =>
    rw [flushStudy_exc_eq]
    refine ⟨?_, fun _ => ⟨rfl, rfl, rfl⟩⟩
    intro st2 hst2
    simp only [resultWorld] at hst2
    unfold setLocked at hst2
    rw [lookupA_mapVal] at hst2
    cases hinner : lookupA (mapVal w.studies uid fun s => { s with locked := true }) uid with
    | none => rw [hinner] at hst2; cases hst2
    | some s =>
      rw [hinner] at hst2
      cases hst2
      rfl
  case false =>
    refine ⟨?_, fun h => Bool.noConfusion h⟩
    intro st2 hst2
    by_cases hok : (uploadLoop endpoint retries).ok = true
    · rw [flushStudy_ok_eq endpoint retries ts w uid st hok] at hst2
      simp only [resultWorld] at hst2
      rw [lookupA_afterPop] at hst2
      cases hst2
    · have hfail : (uploadLoop endpoint retries).ok = false := by
        revert hok
        cases (uploadLoop endpoint retries).ok <;> simp
      rw [flushStudy_fail_eq endpoint retries ts w uid st hfail] at hst2
      simp only [resultWorld] at hst2
      rw [lookupA_afterPop] at hst2
      cases hst2

/-- C5: for a registry holding one study, a scan flushes it (so that its
entry is gone afterwards) exactly when it is not locked and
now - lastActivity is at least the idle threshold; a locked study, or one
whose last activity is within the idle window (its timer having been reset
by every new image), is left completely untouched by the scan. -/
theorem scan_idle_guard (nowT idle : ℤ) (endpoint : Nat → UploadResult) (retries : Nat)
    (ts : Str) (uid : Str) (st : StudyState) (w : World)
    (hw : w.studies = [(uid, st)]) :
    ((st.locked = true ∨ nowT - idle < st.last_update_ts) →
        scan_and_flush nowT idle endpoint retries ts (fun _ => false) w = Except.ok w) ∧
    (st.locked = false → idle ≤ nowT - st.last_update_ts →
        ∃ w2, scan_and_flush nowT idle endpoint retries ts (fun _ => false) w = Except.ok w2 ∧
          lookupA w2.studies uid = none) := by
  unfold scan_and_flush
  rw [hw]
  constructor
  · rintro (hl | hi)
    · simp [scanFlushList, hl]
    · by_cases hl : st.locked = true
      · simp [scanFlushList, hl]
      · have hl2 : st.locked = false := by
          revert hl
          cases st.locked <;> simp
        simp [scanFlushList, hl2, hi]
  · intro hl hidle
    have hnot : ¬(nowT - idle < st.last_update_ts) := by
      have hle : st.last_update_ts ≤ nowT - idle := by linarith
      exact not_lt.mpr hle
    by_cases hok : (uploadLoop endpoint retries).ok = true
    · refine ⟨{ studies := setLocked (popKey (setLocked w.studies uid true) uid) uid false,
                raw := popKey w.raw st.path,
                sent := w.sent ++ [(zipName ts uid, zip_study (treeOf w.raw st.path))],
                failed := w.failed }, ?_, lookupA_afterPop w.studies uid⟩
      simp only [scanFlushList, hl, Bool.false_eq_true, if_false, if_neg hnot,
        flushStudy_ok_eq endpoint retries ts w uid st hok]
    · have hfail : (uploadLoop endpoint retries).ok = false := by
        revert hok
        cases (uploadLoop endpoint retries).ok <;> simp
      refine ⟨{ studies := setLocked (popKey (setLocked w.studies uid true) uid) uid false,
                raw := w.raw,
                sent := w.sent,
                failed := w.failed ++ [(zipName ts uid, zip_study (treeOf w.raw st.path))] },
              ?_, lookupA_afterPop w.studies uid⟩
      simp only [scanFlushList, hl, Bool.false_eq_true, if_false, if_neg hnot,
        flushStudy_fail_eq endpoint retries ts w uid st hfail]

/-- Concrete fixture: one image file of one series. -/
def fileA : FileEnt := ⟨[pyStr ("ser")], pyStr ("i.dcm"), [7]⟩

/-- Concrete fixture: an unlocked study last active at time 0. -/
def stS : StudyState := ⟨pyStr ("S"), pyStr ("S"), 0, false⟩

/-- Concrete fixture: a registry holding the study S with one raw file. -/
def wS : World := ⟨[(pyStr ("S"), stS)], [(pyStr ("S"), [fileA])], [], []⟩

/-- C1 counterexample: on a registry with one idle study, when archive
construction raises, scan_and_flush terminates with a propagating
exception (an error result), nothing was written to the failed store, and
the study is still in the registry; this refutes the claims that the
exception is caught at the flush boundary, never propagates out of
scan_and_flush and classifies the study as failed. -/
theorem scan_exception_counterexample :
    isError (scan_and_flush 10 5 (fun _ => UploadResult.resp 200) 3 (pyStr ("T"))
        (fun _ => true) wS) = true ∧
    (resultWorld (scan_and_flush 10 5 (fun _ => UploadResult.resp 200) 3 (pyStr ("T"))
        (fun _ => true) wS)).failed = [] ∧
    lookupA (resultWorld (scan_and_flush 10 5 (fun _ => UploadResult.resp 200) 3 (pyStr ("T"))
        (fun _ => true) wS)).studies (pyStr ("S")) = some stS := by
  refine ⟨?_, ?_, ?_⟩ <;> decide

/-- Witness for C1 (amended): for the concrete study S, with archive
construction raising, the flush propagates the exception and the failed
and sent stores are untouched. -/
theorem flush_boundary_witness :
    isError (flushStudy (fun _ => UploadResult.resp 200) 3 (pyStr ("T")) true wS
        (pyStr ("S")) stS) = true ∧
    (resultWorld (flushStudy (fun _ => UploadResult.resp 200) 3 (pyStr ("T")) true wS
        (pyStr ("S")) stS)).failed = wS.failed ∧
    (resultWorld (flushStudy (fun _ => UploadResult.resp 200) 3 (pyStr ("T")) true wS
        (pyStr ("S")) stS)).sent = wS.sent :=
  (flush_boundary (fun _ => UploadResult.resp 200) 3 (pyStr ("T")) true wS
    (pyStr ("S")) stS).2 rfl

/-- Witness for C6 at a concrete world and an endpoint answering 200. -/
theorem flush_success_outcome_witness :
    ∃ w2, flushStudy (fun _ => UploadResult.resp 200) 1 (pyStr ("TS")) false wS
        (pyStr ("S")) stS = Except.ok w2 ∧
      w2.sent = wS.sent ++ [(zipName (pyStr ("TS")) (pyStr ("S")),
        zip_study (treeOf wS.raw stS.path))] ∧
      lookupA w2.raw stS.path = none ∧
      lookupA w2.studies (pyStr ("S")) = none ∧
      w2.failed = wS.failed :=
  flush_success_outcome (fun _ => UploadResult.resp 200) 1 (pyStr ("TS")) wS
    (pyStr ("S")) stS (by decide)

/-- Witness for C7 at a concrete world and an endpoint answering 500. -/
theorem flush_failed_outcome_witness :
    ∃ w2, flushStudy (fun _ => UploadResult.resp 500) 2 (pyStr ("TS")) false wS
        (pyStr ("S")) stS = Except.ok w2 ∧
      w2.failed = wS.failed ++ [(zipName (pyStr ("TS")) (pyStr ("S")),
        zip_study (treeOf wS.raw stS.path))] ∧
      w2.raw = wS.raw ∧
      lookupA w2.studies (pyStr ("S")) = none ∧
      w2.sent = wS.sent :=
  flush_failed_outcome (fun _ => UploadResult.resp 500) 2 (pyStr ("TS")) wS
    (pyStr ("S")) stS (by decide)

/-- Concrete fixture for C5: study last active at time 0, not locked. -/
def st5a : StudyState := ⟨pyStr ("A"), pyStr ("A"), 0, false⟩

/-- Registry holding only study A. -/
def w5a : World := ⟨[(pyStr ("A"), st5a)], [], [], []⟩

/-- Concrete fixture for C5: study that received an image at time
idleThreshold - 1 = 4, not locked. -/
def st5b : StudyState := ⟨pyStr ("B"), pyStr ("B"), 4, false⟩

/-- Registry holding only study B. -/
def w5b : World := ⟨[(pyStr ("B"), st5b)], [], [], []⟩

/-- Concrete fixture for C5: a study already being flushed (locked). -/
def st5c : StudyState := ⟨pyStr ("C"), pyStr ("C"), 0, true⟩

/-- Registry holding only study C. -/
def w5c : World := ⟨[(pyStr ("C"), st5c)], [], [], []⟩

/-- Witness for C5 with idleThreshold 5 and a scan at time 5 + 1/2: study A
(last image at time 0) is flushed; study B (image at time 4, i.e. the
timer was reset at idleThreshold - 1) is untouched; locked study C is
untouched. -/
theorem scan_idle_guard_witness :
    (∃ w2, scan_and_flush 6 5 (fun _ => UploadResult.resp 200) 1 (pyStr ("T"))
        (fun _ => false) w5a = Except.ok w2 ∧ lookupA w2.studies (pyStr ("A")) = none) ∧
    scan_and_flush 6 5 (fun _ => UploadResult.resp 200) 1 (pyStr ("T"))
        (fun _ => false) w5b = Except.ok w5b ∧
    scan_and_flush 6 5 (fun _ => UploadResult.resp 200) 1 (pyStr ("T"))
        (fun _ => false) w5c = Except.ok w5c :=
  ⟨(scan_idle_guard 6 5 (fun _ => UploadResult.resp 200) 1 (pyStr ("T"))
      (pyStr ("A")) st5a w5a rfl).2 rfl (by decide),
   (scan_idle_guard 6 5 (fun _ => UploadResult.resp 200) 1 (pyStr ("T"))
      (pyStr ("B")) st5b w5b rfl).1 (Or.inr (by decide)),
   (scan_idle_guard 6 5 (fun _ => UploadResult.resp 200) 1 (pyStr ("T"))
      (pyStr ("C")) st5c w5c rfl).1 (Or.inl rfl)⟩

/-- One incoming DICOM dataset as seen by on_c_store: the three
identifying attributes, each possibly absent, and the image bytes.
getattr(ds, attr, "") yields the empty string for an absent attribute,
modelled by Option.getD with the empty string. -/
structure Dataset where
  studyUid : Option Str
  seriesUid : Option Str
  sopUid : Option Str
  bytes : List Nat
deriving DecidableEq

/-- write_instance (dicom_listener.py, line 88): the file written for one
dataset, at {series_uid_s}/{sop_uid_s}.dcm relative to the study
directory, with the fallbacks series_unknown and inst_{ms} for absent
identifiers.  The atomic write-to-temp-then-rename is modelled as the
final state only. -/
def write_instance (alnum : Char → Bool) (nowMs : Nat) (ds : Dataset) : FileEnt :=
  let series_uid := ds.seriesUid.getD []
  let sop_uid := ds.sopUid.getD []
  let series_uid_s :=
    if series_uid = [] then pyStr ("series_unknown") else sanitize_filename alnum series_uid
  let sop_uid_s :=
    if sop_uid = [] then pyStr ("inst_") ++ natStr nowMs else sanitize_filename alnum sop_uid
  ⟨[series_uid_s], sop_uid_s ++ pyStr (".dcm"), ds.bytes⟩

/-- The study directory name and registry key chosen by on_c_store for a
dataset: strip the study identifier, fall back to a synthetic
study_unknown_{ms} identifier when absent or empty, then sanitize. -/
def storeKey (alnum : Char → Bool) (nowMs : Nat) (ds : Dataset) : Str :=
  sanitize_filename alnum
    (if pyStrip (ds.studyUid.getD []) = [] then pyStr ("study_unknown_") ++ natStr nowMs
     else pyStrip (ds.studyUid.getD []))

/-- HeimdallrDicomListener.on_c_store (line 235): the whole handler body is
wrapped in try/except.  writeExc says whether the disk write (or any other
I/O step) raises; in that case the handler returns the protocol failure
status 0xA700 and no exception propagates (the result type is a plain
pair, never an error).  Otherwise the image is written into the study
directory and the registry entry is created (state RECEIVING, i.e.
locked = false) or its last_update_ts refreshed. -/
def on_c_store (alnum : Char → Bool) (nowMs : Nat) (nowT : ℤ) (writeExc : Bool)
    (ds : Dataset) (w : World) : Nat × World :=
  if writeExc then (0xA700, w)
  else
    let key := storeKey alnum nowMs ds
    let w1 : World := { w with raw := putFile w.raw key (write_instance alnum nowMs ds) }
    let w2 : World :=
      match lookupA w1.studies key with
      | none => { w1 with studies := w1.studies ++ [(key, ⟨key, key, nowT, false⟩)] }
      | some _ => { w1 with studies := setTs w1.studies key nowT }
    (0x0000, w2)

/-- C8: on_c_store either completes and returns the protocol success
status 0x0000, or, when an exception is raised during its steps, returns
the protocol failure status 0xA700 for that single image with the state
untouched; no exception ever propagates out of the handler (its result is
a total pair).  An image whose study identifier is absent, or empty after
stripping whitespace, is never dropped: it is stored under the synthetic
identifier study_unknown_{ms} derived from the current time, with a
registry entry created at that key. -/
theorem on_c_store_spec (alnum : Char → Bool) (nowMs : Nat) (nowT : ℤ) (writeExc : Bool)
    (ds : Dataset) (w : World) :
    ((on_c_store alnum nowMs nowT writeExc ds w).1 = 0x0000 ∨
      (on_c_store alnum nowMs nowT writeExc ds w).1 = 0xA700) ∧
    (writeExc = true → (on_c_store alnum nowMs nowT writeExc ds w).1 = 0xA700 ∧
      (on_c_store alnum nowMs nowT writeExc ds w).2 = w) ∧
    (writeExc = false → (on_c_store alnum nowMs nowT writeExc ds w).1 = 0x0000) ∧
    (writeExc = false → pyStrip (ds.studyUid.getD []) = [] →
      ¬lookupA (on_c_store alnum nowMs nowT writeExc ds w).2.studies
          (sanitize_filename alnum (pyStr ("study_unknown_") ++ natStr nowMs)) = none ∧
      write_instance alnum nowMs ds ∈
        treeOf (on_c_store alnum nowMs nowT writeExc ds w).2.raw
          (sanitize_filename alnum (pyStr ("study_unknown_") ++ natStr nowMs))) := by
  cases writeExc
  case true =>
    exact ⟨Or.inr rfl, fun _ => ⟨rfl, rfl⟩, fun h => Bool.noConfusion h,
      fun h => Bool.noConfusion h⟩
  case false =>
    have hkeyfun : ∀ hue : pyStrip (ds.studyUid.getD []) = [],
        storeKey alnum nowMs ds
          = sanitize_filename alnum (pyStr ("study_unknown_") ++ natStr nowMs) := by
      intro hue
      unfold storeKey
      rw [if_pos hue]
    refine ⟨?_, fun h => Bool.noConfusion h, fun _ => ?_, fun _ hue => ⟨?_, ?_⟩⟩
    · unfold on_c_store
      cases lookupA ({ w with
          raw := putFile w.raw (storeKey alnum nowMs ds)
            (write_instance alnum nowMs ds) } : World).studies (storeKey alnum nowMs ds) with
      | none => exact Or.inl rfl
      | some _ => exact Or.inl rfl
    · unfold on_c_store
      cases lookupA ({ w with
          raw := putFile w.raw (storeKey alnum nowMs ds)
            (write_instance alnum nowMs ds) } : World).studies (storeKey alnum nowMs ds) with
      | none => rfl
      | some _ => rfl
    · rw [← hkeyfun hue]
      unfold on_c_store
      simp only [Bool.false_eq_true, if_false]
      cases hl : lookupA ({ w with
          raw := putFile w.raw (storeKey alnum nowMs ds)
            (write_instance alnum nowMs ds) } : World).studies (storeKey alnum nowMs ds) with
      | none =>
        simp only [hl]
        rw [lookupA_append_none _ _ _ hl, lookupA_cons, if_pos rfl]
        simp
      | some st0 =>
        simp only [hl]
        show ¬lookupA (setTs _ (storeKey alnum nowMs ds) nowT) (storeKey alnum nowMs ds) = none
        unfold setTs
        rw [lookupA_mapVal, hl]
        simp
    · rw [← hkeyfun hue]
      unfold on_c_store
      simp only [Bool.false_eq_true, if_false]
      cases hl : lookupA ({ w with
          raw := putFile w.raw (storeKey alnum nowMs ds)
            (write_instance alnum nowMs ds) } : World).studies (storeKey alnum nowMs ds) with
      | none =>
        simp only [hl]
        exact mem_treeOf_putFile w.raw _ _
      | some st0 =>
        simp only [hl]
        exact mem_treeOf_putFile w.raw _ _

/-- Concrete fixture: a dataset with an absent study identifier. -/
def dsNoUid : Dataset := ⟨none, some (pyStr ("ser")), some (pyStr ("sop")), [9]⟩

/-- Witness for C8: storing a dataset with no study identifier at time
nowMs = 123 succeeds and creates a registry entry under the synthetic
study_unknown_123 identifier. -/
theorem on_c_store_spec_witness :
    (on_c_store Char.isAlphanum 123 7 false dsNoUid wS).1 = 0x0000 ∧
    ¬lookupA (on_c_store Char.isAlphanum 123 7 false dsNoUid wS).2.studies
        (sanitize_filename Char.isAlphanum (pyStr ("study_unknown_") ++ natStr 123)) = none :=
  ⟨(on_c_store_spec Char.isAlphanum 123 7 false dsNoUid wS).2.2.1 rfl,
   ((on_c_store_spec Char.isAlphanum 123 7 false dsNoUid wS).2.2.2 rfl (by decide)).1⟩

/-- C10: when an image arrives for a study whose registry entry is
currently locked (being flushed), on_c_store does not create a fresh
entry: the key set of the registry is unchanged, the existing locked
entry merely gets last_update_ts refreshed (locked stays true), and the
image file is written into the same study directory st.path that the
in-progress flush is archiving or deleting.  A fresh entry for that
studyId is created exactly when no entry for it is present, i.e. only
after the flush has removed it.  The handler takes no lock, so it is
never blocked by the flush. -/
theorem on_c_store_locked_entry (alnum : Char → Bool) (nowMs : Nat) (nowT : ℤ)
    (ds : Dataset) (w : World) (st : StudyState)
    (hmem : lookupA w.studies (storeKey alnum nowMs ds) = some st)
    (hlock : st.locked = true)
    (hpath : st.path = storeKey alnum nowMs ds) :
    (on_c_store alnum nowMs nowT false ds w).1 = 0x0000 ∧
    keys (on_c_store alnum nowMs nowT false ds w).2.studies = keys w.studies ∧
    lookupA (on_c_store alnum nowMs nowT false ds w).2.studies (storeKey alnum nowMs ds)
      = some { st with last_update_ts := nowT } ∧
    ({ st with last_update_ts := nowT } : StudyState).locked = true ∧
    write_instance alnum nowMs ds ∈
      treeOf (on_c_store alnum nowMs nowT false ds w).2.raw st.path ∧
    ∀ w3 : World, lookupA w3.studies (storeKey alnum nowMs ds) = none →
      (on_c_store alnum nowMs nowT false ds w3).2.studies
        = w3.studies ++ [(storeKey alnum nowMs ds,
            ⟨storeKey alnum nowMs ds, storeKey alnum nowMs ds, nowT, false⟩)] := by
  have hmem1 : lookupA ({ w with
      raw := putFile w.raw (storeKey alnum nowMs ds)
        (write_instance alnum nowMs ds) } : World).studies (storeKey alnum nowMs ds)
      = some st := hmem
  refine ⟨?_, ?_, ?_, hlock, ?_, ?_⟩
  · unfold on_c_store
    simp only [Bool.false_eq_true, if_false, hmem1]
  · unfold on_c_store
    simp only [Bool.false_eq_true, if_false, hmem1]
    exact keys_mapVal w.studies _ _
  · unfold on_c_store
    simp only [Bool.false_eq_true, if_false, hmem1]
    show lookupA (setTs _ _ nowT) _ = _
    unfold setTs
    rw [lookupA_mapVal, hmem]
    rfl
  · unfold on_c_store
    simp only [Bool.false_eq_true, if_false, hmem1]
    rw [hpath]
    exact mem_treeOf_putFile w.raw _ _
  · intro w3 h3
    have h31 : lookupA ({ w3 with
        raw := putFile w3.raw (storeKey alnum nowMs ds)
          (write_instance alnum nowMs ds) } : World).studies (storeKey alnum nowMs ds)
        = none := h3
    unfold on_c_store
    simp only [Bool.false_eq_true, if_false, h31]

/-- Concrete fixture: the study S with its entry locked mid-flush. -/
def stL : StudyState := ⟨pyStr ("S"), pyStr ("S"), 0, true⟩

/-- Concrete fixture: a registry holding only the locked study S. -/
def wL : World := ⟨[(pyStr ("S"), stL)], [], [], []⟩

/-- Concrete fixture: a dataset for study S with no series or instance
identifiers. -/
def dsS : Dataset := ⟨some (pyStr ("S")), none, none, [9]⟩

/-- Witness for C10: an image for the locked study S refreshes its
timestamp without creating a fresh entry. -/
theorem on_c_store_locked_entry_witness :
    (on_c_store Char.isAlphanum 123 7 false dsS wL).1 = 0x0000 ∧
    keys (on_c_store Char.isAlphanum 123 7 false dsS wL).2.studies = keys wL.studies ∧
    lookupA (on_c_store Char.isAlphanum 123 7 false dsS wL).2.studies
        (storeKey Char.isAlphanum 123 dsS) = some { stL with last_update_ts := 7 } :=
  ⟨(on_c_store_locked_entry Char.isAlphanum 123 7 dsS wL stL (by decide) rfl (by decide)).1,
   (on_c_store_locked_entry Char.isAlphanum 123 7 dsS wL stL (by decide) rfl (by decide)).2.1,
   (on_c_store_locked_entry Char.isAlphanum 123 7 dsS wL stL (by decide) rfl (by decide)).2.2.1⟩

end DicomListener
